import Mathlib

/-!
Verification development for the dataform CLI and scheduler core.

The definitions below shallowly embed the `run` and `test` command handlers
of `src/cli/index.ts` together with the data shapes they manipulate
(`src/protos/configs.proto`, the core proto). Parts of the system that live
outside the given sources (the yargs wrapper, the execution engine's
build/run/retry/reconciliation logic) are modelled from the specification
text and carry doc comments saying so.
-/

namespace Dataform

/-- Overall status of a `RunResult` (`dataform.RunResult.ExecutionStatus`),
as consumed at `src/cli/index.ts:592`. -/
inductive RunExecutionStatus where
  | SUCCESSFUL
  | FAILED
  | CANCELLED
deriving DecidableEq, Repr

/-- Per-action execution status from the spec's `ExecutionAction` data model
(PENDING, RUNNING, SUCCESSFUL, FAILED, SKIPPED, CANCELLED). -/
inductive ActionExecutionStatus where
  | PENDING
  | RUNNING
  | SUCCESSFUL
  | FAILED
  | SKIPPED
  | CANCELLED
deriving DecidableEq, Repr

/-- An executable unit of the execution graph: a readable target name plus a
status (spec §3, `ExecutionAction`). -/
structure ExecutionAction where
  name : String
  status : ActionExecutionStatus
deriving DecidableEq, Repr

/-- Modelled from the spec: `build(graph, selectedTargets, options)` is part of
the execution engine, which is not under the given sources. Per spec §3, an
ExecutionAction "adds a `status` (PENDING, ...)" and instances "are created per
invocation of build/run"; every freshly built action starts PENDING. -/
def buildExecutionGraph (selectedNames : List String) : List ExecutionAction :=
  selectedNames.map fun n => { name := n, status := ActionExecutionStatus.PENDING }

/-- The slice of a compiled graph the CLI handlers inspect: the compilation
errors (`graphErrors.compilationErrors`) and the unit tests. -/
structure CompiledGraph where
  compilationErrors : List String
  tests : List String
deriving DecidableEq, Repr

/-- Modelled from the spec: `compiledGraphHasErrors` lives in `df/cli/util`,
not under the given sources. Per spec §6, the scheduler "refuses to run ... if
any compilation error is present", so the predicate holds exactly when the
compilation error list is nonempty. -/
def compiledGraphHasErrors (g : CompiledGraph) : Bool :=
  !g.compilationErrors.isEmpty

/-- The command-line arguments of the `run` command that its handler branches
on (`src/cli/index.ts:480-592`). `actions` and `tags` are `none` when the
option was not supplied, `some` (possibly empty) when it was. -/
structure RunArgv where
  json : Bool
  dryRun : Bool
  runTests : Bool
  includeDeps : Bool
  includeDependents : Bool
  fullRefresh : Bool
  actionRetryLimit : Nat
  actions : Option (List String)
  tags : Option (List String)
deriving DecidableEq, Repr

/-- Outcomes of the external collaborators invoked by the `run` handler:
the compiler's graph, the targets selected by `build`, the unit-test results
(`successful` flag of each result), and the final runner status. -/
structure RunEnv where
  compiledGraph : CompiledGraph
  selectedActionNames : List String
  testResults : List Bool
  runResultStatus : RunExecutionStatus
deriving DecidableEq, Repr

/-- Observable effects of a CLI handler, in the order they happen. -/
inductive Event where
  | printedUsage
  | compileCalled
  | buildCalled
  | testsRun
  | runnerInvoked
deriving DecidableEq, Repr

/-- The distinct ways the `run` handler can return
(`src/cli/index.ts:480-592`). `usageError` is the `--json` without
`--dry-run` guard (line 481), `compileErrors` the early return at line 496,
`dryRunJson` the execution-graph printout at line 520, `testsFailed` the
aborted run at line 529, `noActions` the empty-graph return at line 551, and
`ran` the final `runResult.status` based return at line 592. -/
inductive RunOutcome where
  | usageError
  | compileErrors (errs : List String)
  | dryRunJson (graph : List ExecutionAction)
  | testsFailed
  | noActions
  | ran (status : RunExecutionStatus)
deriving DecidableEq, Repr

/-- The `run` command's `processFn` (`src/cli/index.ts:480-592`), as a pure
function of the argv flags and the external collaborators' behaviour. The
returned trace records which collaborators were invoked, in program order.
The `actionsByName.size === 0` test at line 551 is equivalent to the built
action list being empty, since the map holds exactly one entry per distinct
action name. -/
def runProcessFn (argv : RunArgv) (env : RunEnv) : RunOutcome × List Event :=
  if argv.json && !argv.dryRun then
    (RunOutcome.usageError, [Event.printedUsage])
  else if compiledGraphHasErrors env.compiledGraph then
    (RunOutcome.compileErrors env.compiledGraph.compilationErrors, [Event.compileCalled])
  else
    let graph := buildExecutionGraph env.selectedActionNames
    if argv.dryRun && argv.json then
      (RunOutcome.dryRunJson graph, [Event.compileCalled, Event.buildCalled])
    else if argv.runTests && env.testResults.any (fun ok => !ok) then
      (RunOutcome.testsFailed, [Event.compileCalled, Event.buildCalled, Event.testsRun])
    else
      let pre := if argv.runTests
        then [Event.compileCalled, Event.buildCalled, Event.testsRun]
        else [Event.compileCalled, Event.buildCalled]
      if graph.isEmpty then
        (RunOutcome.noActions, pre)
      else
        (RunOutcome.ran env.runResultStatus, pre ++ [Event.runnerInvoked])

/-- The value the `run` handler returns to the yargs wrapper: `none` models a
bare `return;` (JavaScript `undefined`, lines 486 and 522), `some n` an
explicit `return n`. -/
def processReturn : RunOutcome → Option Nat
  | RunOutcome.usageError => none
  | RunOutcome.compileErrors _ => some 1
  | RunOutcome.dryRunJson _ => none
  | RunOutcome.testsFailed => some 1
  | RunOutcome.noActions => some 0
  | RunOutcome.ran s => some (if s = RunExecutionStatus.SUCCESSFUL then 0 else 1)

/-- Modelled from the spec: the yargs wrapper (`df/cli/yargswrapper`, not under
the given sources) turns the handler's return value into the process exit
code; per spec §6 the convention is "0 if RunResult overall status is
SUCCESSFUL (or dry-run completed), 1 otherwise", so an `undefined` return
(dry-run JSON output, usage message) exits 0. -/
def exitCode (o : RunOutcome) : Nat :=
  (processReturn o).getD 0

/-- Whether an outcome delivers the resolved execution graph (rather than a
RunResult or nothing) as the command's output. -/
def outcomeIsGraph : RunOutcome → Bool
  | RunOutcome.dryRunJson _ => true
  | _ => false

/-- JavaScript truthiness of a yargs array-typed option value: `undefined`
(option absent) is falsy, any array — including the empty array — is truthy. -/
def jsTruthy (o : Option (List String)) : Bool :=
  o.isSome

/-- The `check` of the `--include-deps` option (`src/cli/index.ts:102-108`):
throws exactly when the flag is set and neither `argv.actions` nor
`argv.tags` is truthy. -/
def includeDepsCheckThrows (flag : Bool) (actions tags : Option (List String)) : Bool :=
  flag && !(jsTruthy actions || jsTruthy tags)

/-- The `check` of the `--include-dependents` option
(`src/cli/index.ts:118-127`): same condition on its own flag. -/
def includeDependentsCheckThrows (flag : Bool) (actions tags : Option (List String)) : Bool :=
  flag && !(jsTruthy actions || jsTruthy tags)

/-- Result of a whole CLI invocation of the `run` command: either an option
check threw — the `.fail` handler at `src/cli/index.ts:688-698` prints the
error and calls `process.exit(1)` — or the handler ran to an outcome. -/
inductive CliResult where
  | fatalOptionError
  | completed (o : RunOutcome)
deriving DecidableEq, Repr

/-- A full `run` invocation. The sequencing — yargs evaluates each option's
`check` before invoking the command's `processFn` — happens inside the yargs
wrapper (`df/cli/yargswrapper`, not under the given sources) and is modelled
from the spec: "Selection errors ...: fatal, surfaced before any graph work"
(spec §7). -/
def runCommand (argv : RunArgv) (env : RunEnv) : CliResult × List Event :=
  if includeDepsCheckThrows argv.includeDeps argv.actions argv.tags
      || includeDependentsCheckThrows argv.includeDependents argv.actions argv.tags then
    (CliResult.fatalOptionError, [])
  else
    let r := runProcessFn argv env
    (CliResult.completed r.1, r.2)

/-- The distinct ways the `test` command's `processFn` can return
(`src/cli/index.ts:412-438`). -/
inductive TestOutcome where
  | compileErrors (errs : List String)
  | noTests
  | results (allPassed : Bool)
deriving DecidableEq, Repr

/-- The `test` command's `processFn` (`src/cli/index.ts:412-438`): return 1 on
compilation errors before touching the warehouse; return 1 if the project has
no unit tests; otherwise run the tests and return 0 iff every result is
successful. -/
def testProcessFn (g : CompiledGraph) (testResults : List Bool) : TestOutcome × List Event :=
  if compiledGraphHasErrors g then
    (TestOutcome.compileErrors g.compilationErrors, [Event.compileCalled])
  else if g.tests.isEmpty then
    (TestOutcome.noTests, [Event.compileCalled])
  else
    (TestOutcome.results (testResults.all id), [Event.compileCalled, Event.testsRun])

/-- Exit code of the `test` command (`src/cli/index.ts:421,430,437`). -/
def testExitCode : TestOutcome → Nat
  | TestOutcome.compileErrors _ => 1
  | TestOutcome.noTests => 1
  | TestOutcome.results allPassed => if allPassed then 0 else 1

/-- JavaScript `String.prototype.split(",")` over a string viewed as a
character list: splits at every comma; the empty string yields `[[]]`
(JavaScript `"".split(",")` is `[""]`). -/
def splitComma : List Char → List (List Char)
  | [] => [[]]
  | c :: rest =>
    if c = ',' then
      [] :: splitComma rest
    else
      match splitComma rest with
      | [] => [[c]]
      | h :: t => (c :: h) :: t

/-- The `coerce` of the `--actions` and `--tags` options
(`src/cli/index.ts:82,91`): `rawActions.map(a => a.split(",")).flat()`. -/
def coerceActionList (raw : List (List Char)) : List (List Char) :=
  (raw.map splitComma).flatten

/-- The concrete statement shapes an execution action can resolve to, as far
as retry classification is concerned (spec §4.2/§4.3). -/
inductive ActionExecType where
  | tableCreate
  | viewCreate
  | incrementalFullRefresh
  | incrementalMerge
  | dataPrepReplace
  | dataPrepAppend
  | dataPrepMaximum
  | dataPrepUnique
  | operation
  | assertion
deriving DecidableEq, Repr

/-- Modelled from the spec: the runner's idempotency classification lives in
the execution engine, not under the given sources. Spec §4.3 point 6:
idempotent are the full rebuilds — TABLE, VIEW, full-refresh INCREMENTAL, and
DataPreparation `replace`; everything else (incremental merges,
append/unique/maximum loads, Operations, Assertions) is not. -/
def isIdempotent : ActionExecType → Bool
  | ActionExecType.tableCreate => true
  | ActionExecType.viewCreate => true
  | ActionExecType.incrementalFullRefresh => true
  | ActionExecType.dataPrepReplace => true
  | _ => false

/-- Modelled from the spec: number of automatic retries granted to an action —
`actionRetryLimit` when it is idempotent, zero otherwise (spec §4.3 point 6,
§8). -/
def allowedRetries (limit : Nat) (k : ActionExecType) : Nat :=
  if isIdempotent k then limit else 0

/-- Modelled from the spec: the runner's attempt loop. `outcomes i` tells
whether the i-th dispatch of the identical statement sequence succeeds; the
loop stops at the first success or when no retries remain, returning the
final success flag and the total number of attempts made. -/
def retryLoop (outcomes : Nat → Bool) (attempt : Nat) : Nat → Bool × Nat
  | 0 => (outcomes attempt, attempt + 1)
  | retriesLeft + 1 =>
    if outcomes attempt then
      (true, attempt + 1)
    else
      retryLoop outcomes (attempt + 1) retriesLeft

/-- Modelled from the spec: executing one action under the retry policy —
attempt, then retry on failure up to `allowedRetries limit k` times; a final
failed attempt marks the action FAILED (spec §4.3 point 6). -/
def executeWithRetries (limit : Nat) (k : ActionExecType) (outcomes : Nat → Bool) :
    Bool × Nat :=
  retryLoop outcomes 0 (allowedRetries limit k)

/-- Schema-change policy for incremental tables
(`src/protos/configs.proto:267-277`, core proto `OnSchemaChange`). -/
inductive OnSchemaChange where
  | IGNORE
  | FAIL
  | EXTEND
  | SYNCHRONIZE
deriving DecidableEq, Repr

/-- Two column lists describe the same column set. -/
def sameColumnSet (a b : List String) : Bool :=
  a.all (fun c => decide (c ∈ b)) && b.all (fun c => decide (c ∈ a))

/-- Modelled from the spec: pre-merge column reconciliation is performed by
the execution engine, not under the given sources. Per spec §4.2 (consistent
with the `OnSchemaChange` proto comments): IGNORE performs no reconciliation;
FAIL aborts (returns `none`) before any DDL/DML whenever target and query
column sets differ; EXTEND adds new columns but forbids removed or renamed
columns; SYNCHRONIZE adds new columns and drops columns absent from the query
result. The result is the target's column list after reconciliation. -/
def reconcileSchema (policy : OnSchemaChange) (target query : List String) :
    Option (List String) :=
  match policy with
  | OnSchemaChange.IGNORE => some target
  | OnSchemaChange.FAIL =>
    if sameColumnSet target query then some target else none
  | OnSchemaChange.EXTEND =>
    if target.all (fun c => decide (c ∈ query)) then
      some (target ++ query.filter (fun c => decide (c ∉ target)))
    else
      none
  | OnSchemaChange.SYNCHRONIZE =>
    some (target.filter (fun c => decide (c ∈ query))
      ++ query.filter (fun c => decide (c ∉ target)))

/-- A row of a data-preparation source or target, seen through the values of
its columns. -/
structure Row where
  cols : String → Int

/-- Load mode of a DataPreparation as configured
(`src/protos/configs.proto:566-583`; core proto `LoadConfiguration`, where
`automatic` carries an optional ordering column name). -/
inductive LoadMode where
  | replace
  | append
  | maximum (columnName : String)
  | unique (columnName : String)
  | automatic (orderingColumn : Option String)
deriving DecidableEq, Repr

/-- A load mode after `automatic` has been resolved away. -/
inductive ResolvedLoadMode where
  | replace
  | append
  | maximum (columnName : String)
  | unique (columnName : String)
deriving DecidableEq, Repr

/-- Modelled from the spec: the builder resolves `automatic` to `maximum` when
an ordering column is known and to `append` otherwise (spec §4.2,
DataPreparation); the other modes pass through unchanged. The resolution
logic lives in the execution engine, not under the given sources. -/
def resolveLoadMode : LoadMode → ResolvedLoadMode
  | LoadMode.replace => ResolvedLoadMode.replace
  | LoadMode.append => ResolvedLoadMode.append
  | LoadMode.maximum c => ResolvedLoadMode.maximum c
  | LoadMode.unique c => ResolvedLoadMode.unique c
  | LoadMode.automatic (some c) => ResolvedLoadMode.maximum c
  | LoadMode.automatic none => ResolvedLoadMode.append

/-- Modelled from the spec: effect of a resolved load mode on the target
table's rows (spec §4.2, consistent with the `LoadMode` proto comments):
`replace` fully overwrites the target, `append` inserts all rows, `maximum`
inserts only rows whose configured column value exceeds every value currently
in the target (the current maximum), `unique` inserts only rows whose
configured column value is not already present among the target's values. -/
def applyResolvedLoad (m : ResolvedLoadMode) (target incoming : List Row) : List Row :=
  match m with
  | ResolvedLoadMode.replace => incoming
  | ResolvedLoadMode.append => target ++ incoming
  | ResolvedLoadMode.maximum c =>
    target ++ incoming.filter (fun r => target.all (fun t => t.cols c < r.cols c))
  | ResolvedLoadMode.unique c =>
    target ++ incoming.filter (fun r => target.all (fun t => t.cols c ≠ r.cols c))

/-- Loading a DataPreparation: resolve the configured mode, then apply it. -/
def dataPrepLoad (m : LoadMode) (target incoming : List Row) : List Row :=
  applyResolvedLoad (resolveLoadMode m) target incoming

/-! Concrete sample inputs used to instantiate the theorems below. -/

/-- A plain `run` invocation: no flags, no selection options. -/
def argvPlain : RunArgv :=
  { json := false, dryRun := false, runTests := false, includeDeps := false,
    includeDependents := false, fullRefresh := false, actionRetryLimit := 0,
    actions := none, tags := none }

/-- A healthy environment with one selected action and a successful run. -/
def envOneAction : RunEnv :=
  { compiledGraph := { compilationErrors := [], tests := [] },
    selectedActionNames := ["a"], testResults := [],
    runResultStatus := RunExecutionStatus.SUCCESSFUL }

/-- An environment whose compiled graph carries one compilation error. -/
def envErr : RunEnv :=
  { compiledGraph := { compilationErrors := ["e"], tests := [] },
    selectedActionNames := [], testResults := [],
    runResultStatus := RunExecutionStatus.SUCCESSFUL }

/-- An environment with one unit test that fails. -/
def envFailingTest : RunEnv :=
  { compiledGraph := { compilationErrors := [], tests := ["t"] },
    selectedActionNames := ["a"], testResults := [false],
    runResultStatus := RunExecutionStatus.SUCCESSFUL }

/-- Target columns of the spec's schema-change scenario. -/
def colsTarget : List String := ["id", "name"]

/-- Query columns of the spec's schema-change scenario. -/
def colsQuery : List String := ["id", "name", "extra"]

/-! Helper lemmas. -/

theorem splitComma_ne_nil (l : List Char) : splitComma l ≠ [] := by
  induction l with
  | nil => simp [splitComma]
  | cons c rest ih =>
    simp only [splitComma]
    by_cases h : c = ','
    · simp [h]
    · simp only [if_neg h]
      cases hs : splitComma rest with
      | nil => simp
      | cons hd tl => simp

theorem splitComma_append_comma (a b : List Char) :
    splitComma (a ++ ',' :: b) = splitComma a ++ splitComma b := by
  induction a with
  | nil => simp [splitComma]
  | cons c cs ih =>
    simp only [List.cons_append, splitComma]
    by_cases h : c = ','
    · simp [h, ih]
    · simp only [if_neg h]
      simp only [List.append_eq]
      rw [ih]
      cases hs : splitComma cs with
      | nil => exact absurd hs (splitComma_ne_nil cs)
      | cons hd tl => simp [hs]

theorem retryLoop_attempts_le (outcomes : Nat → Bool) (a r : Nat) :
    (retryLoop outcomes a r).2 ≤ a + r + 1 := by
  induction r generalizing a with
  | zero => simp [retryLoop]
  | succ n ih =>
    have hnext := ih (a + 1)
    by_cases h : outcomes a = true
    · simp [retryLoop, h]
    · simp [retryLoop, h]
      omega

theorem retryLoop_failed_attempts (outcomes : Nat → Bool) (a r : Nat)
    (h : (retryLoop outcomes a r).1 = false) :
    (retryLoop outcomes a r).2 = a + r + 1 := by
  induction r generalizing a with
  | zero => simp [retryLoop]
  | succ n ih =>
    by_cases ho : outcomes a = true
    · simp [retryLoop, ho] at h
    · simp [retryLoop, ho] at h ⊢
      have := ih (a + 1) h
      omega

/-! Claim theorems. -/

/-- C1: For every completed (non-dry-run) invocation of the run command, the
CLI's exit code is 0 if the final RunResult's overall status is SUCCESSFUL
(or the dry run completed, or the selected execution graph is empty), and 1
otherwise. An invocation is completed when the handler reaches a final
RunResult (`ran`), the empty-graph return (`noActions`), or the dry-run JSON
output (`dryRunJson`). -/
theorem claim_C1_run_exit_codes (argv : RunArgv) (env : RunEnv) :
    (∀ s, (runProcessFn argv env).1 = RunOutcome.ran s →
      exitCode (runProcessFn argv env).1
        = if s = RunExecutionStatus.SUCCESSFUL then 0 else 1)
    ∧ ((runProcessFn argv env).1 = RunOutcome.noActions →
      exitCode (runProcessFn argv env).1 = 0)
    ∧ (∀ g, (runProcessFn argv env).1 = RunOutcome.dryRunJson g →
      exitCode (runProcessFn argv env).1 = 0) := by
  refine ⟨fun s h => ?_, fun h => ?_, fun g h => ?_⟩ <;>
    rw [h] <;> simp [exitCode, processReturn]

/-- Witness for C1 at a concrete invocation: a plain run over one action with
a SUCCESSFUL RunResult exits 0. -/
theorem claim_C1_run_exit_codes_witness :
    (runProcessFn argvPlain envOneAction).1
      = RunOutcome.ran RunExecutionStatus.SUCCESSFUL
    ∧ exitCode (runProcessFn argvPlain envOneAction).1
      = if RunExecutionStatus.SUCCESSFUL = RunExecutionStatus.SUCCESSFUL
        then 0 else 1 :=
  ⟨by decide,
    (claim_C1_run_exit_codes argvPlain envOneAction).1
      RunExecutionStatus.SUCCESSFUL (by decide)⟩

/-- C8: Each element supplied to the `--actions`/`--tags` list options is
additionally split on commas and the results flattened, so `--actions a,b`
and `--actions a --actions b` yield the same pattern list. -/
theorem claim_C8_comma_split (a b : List Char) :
    coerceActionList [a ++ [','] ++ b] = coerceActionList [a, b] := by
  have : a ++ [','] ++ b = a ++ ',' :: b := by simp
  rw [this]
  simp [coerceActionList, splitComma_append_comma]

/-- C3: With a configured `actionRetryLimit`, an idempotent action (TABLE,
VIEW, full-refresh INCREMENTAL, DataPreparation replace) is retried at most
`actionRetryLimit` times on failure before being marked FAILED, while a
non-idempotent action (incremental merge, append/unique/maximum load,
Operation, Assertion) is retried zero times regardless of the limit: its
total attempt count never exceeds `limit + 1` (resp. is exactly 1), and an
action that ends FAILED has used exactly its allowed attempts. -/
theorem claim_C3_retry_policy (limit : Nat) (k : ActionExecType)
    (outcomes : Nat → Bool) :
    ((isIdempotent k = true →
        (executeWithRetries limit k outcomes).2 ≤ limit + 1)
      ∧ (isIdempotent k = false →
        (executeWithRetries limit k outcomes).2 = 1)
      ∧ ((executeWithRetries limit k outcomes).1 = false →
        (executeWithRetries limit k outcomes).2 = allowedRetries limit k + 1))
    ∧ (isIdempotent ActionExecType.tableCreate = true
      ∧ isIdempotent ActionExecType.viewCreate = true
      ∧ isIdempotent ActionExecType.incrementalFullRefresh = true
      ∧ isIdempotent ActionExecType.dataPrepReplace = true
      ∧ isIdempotent ActionExecType.incrementalMerge = false
      ∧ isIdempotent ActionExecType.dataPrepAppend = false
      ∧ isIdempotent ActionExecType.dataPrepMaximum = false
      ∧ isIdempotent ActionExecType.dataPrepUnique = false
      ∧ isIdempotent ActionExecType.operation = false
      ∧ isIdempotent ActionExecType.assertion = false) := by
  refine ⟨⟨fun h => ?_, fun h => ?_, fun h => ?_⟩, by decide⟩
  · have hle := retryLoop_attempts_le outcomes 0 limit
    simp only [executeWithRetries, allowedRetries, h, if_true]
    omega
  · simp [executeWithRetries, allowedRetries, h, retryLoop]
  · have := retryLoop_failed_attempts outcomes 0 (allowedRetries limit k) h
    simpa [executeWithRetries] using this

/-- Witness for C3: an idempotent TABLE action whose attempts all fail, with
retry limit 2, makes at most 3 attempts. -/
theorem claim_C3_retry_policy_witness :
    isIdempotent ActionExecType.tableCreate = true
    ∧ (executeWithRetries 2 ActionExecType.tableCreate (fun _ => false)).2
      ≤ 2 + 1 :=
  ⟨by decide,
    (claim_C3_retry_policy 2 ActionExecType.tableCreate (fun _ => false)).1.1
      (by decide)⟩

/-- C9: For every invocation of the run command with `--json` set but
`--dry-run` not set, the CLI prints a usage message and returns without
compiling, building, or executing anything. -/
theorem claim_C9_json_requires_dry_run (argv : RunArgv) (env : RunEnv)
    (hjson : argv.json = true) (hdry : argv.dryRun = false) :
    runProcessFn argv env = (RunOutcome.usageError, [Event.printedUsage])
    ∧ Event.compileCalled ∉ (runProcessFn argv env).2
    ∧ Event.buildCalled ∉ (runProcessFn argv env).2
    ∧ Event.runnerInvoked ∉ (runProcessFn argv env).2 := by
  have hmain : runProcessFn argv env = (RunOutcome.usageError, [Event.printedUsage]) := by
    simp [runProcessFn, hjson, hdry]
  refine ⟨hmain, ?_, ?_, ?_⟩ <;> rw [hmain] <;> decide

/-- Witness for C9: `--json` without `--dry-run` short-circuits on the sample
environment. -/
theorem claim_C9_json_requires_dry_run_witness :
    { argvPlain with json := true }.json = true
    ∧ { argvPlain with json := true }.dryRun = false
    ∧ runProcessFn { argvPlain with json := true } envOneAction
      = (RunOutcome.usageError, [Event.printedUsage]) :=
  ⟨by decide, by decide,
    (claim_C9_json_requires_dry_run { argvPlain with json := true } envOneAction
      (by decide) (by decide)).1⟩

/-- C5: For every compiled graph containing at least one compilation error,
the run path (on any invocation that reaches compilation, i.e. not rejected
by the json/dry-run guard) and the test path return immediately with those
errors (CLI exit code 1); no execution graph is built, nothing is dispatched,
and no test is run. -/
theorem claim_C5_compile_errors_abort (argv : RunArgv) (env : RunEnv)
    (tr : List Bool)
    (herr : env.compiledGraph.compilationErrors ≠ [])
    (hpath : ¬(argv.json = true ∧ argv.dryRun = false)) :
    runProcessFn argv env
      = (RunOutcome.compileErrors env.compiledGraph.compilationErrors,
        [Event.compileCalled])
    ∧ exitCode (runProcessFn argv env).1 = 1
    ∧ Event.buildCalled ∉ (runProcessFn argv env).2
    ∧ Event.runnerInvoked ∉ (runProcessFn argv env).2
    ∧ testProcessFn env.compiledGraph tr
      = (TestOutcome.compileErrors env.compiledGraph.compilationErrors,
        [Event.compileCalled])
    ∧ testExitCode (testProcessFn env.compiledGraph tr).1 = 1
    ∧ Event.testsRun ∉ (testProcessFn env.compiledGraph tr).2 := by
  have hguard : (argv.json && !argv.dryRun) = false := by
    cases hj : argv.json <;> cases hd : argv.dryRun <;> simp_all
  have herrb : compiledGraphHasErrors env.compiledGraph = true := by
    cases hE : env.compiledGraph.compilationErrors with
    | nil => exact absurd hE herr
    | cons e es => simp [compiledGraphHasErrors, hE]
  have hmain : runProcessFn argv env
      = (RunOutcome.compileErrors env.compiledGraph.compilationErrors,
        [Event.compileCalled]) := by
    simp [runProcessFn, hguard, herrb]
  have htest : testProcessFn env.compiledGraph tr
      = (TestOutcome.compileErrors env.compiledGraph.compilationErrors,
        [Event.compileCalled]) := by
    simp [testProcessFn, herrb]
  refine ⟨hmain, ?_, ?_, ?_, htest, ?_, ?_⟩
  · rw [hmain]
    simp [exitCode, processReturn]
  · rw [hmain]
    simp
  · rw [hmain]
    simp
  · rw [htest]
    simp [testExitCode]
  · rw [htest]
    simp

/-- Witness for C5 at a concrete erroneous graph. -/
theorem claim_C5_compile_errors_abort_witness :
    envErr.compiledGraph.compilationErrors ≠ []
    ∧ ¬(argvPlain.json = true ∧ argvPlain.dryRun = false)
    ∧ runProcessFn argvPlain envErr
      = (RunOutcome.compileErrors envErr.compiledGraph.compilationErrors,
        [Event.compileCalled]) :=
  ⟨by decide, by decide,
    (claim_C5_compile_errors_abort argvPlain envErr [] (by decide) (by decide)).1⟩

/-- C10 counterexample: with `--run-tests` and `--json` both set (and
`--dry-run` not set), the handler returns at the usage guard — before any
test runs — so a project whose unit tests would fail does not make the
command return exit code 1; the return value is `undefined` (exit 0), even
though the environment's unit tests fail. This refutes the claim as stated
for every invocation with `--run-tests`. -/
theorem claim_C10_counterexample :
    { argvPlain with json := true, runTests := true }.runTests = true
    ∧ envFailingTest.testResults.any (fun ok => !ok) = true
    ∧ processReturn
        (runProcessFn { argvPlain with json := true, runTests := true }
          envFailingTest).1 ≠ some 1
    ∧ exitCode
        (runProcessFn { argvPlain with json := true, runTests := true }
          envFailingTest).1 = 0 := by
  decide

/-- C10 (amended): for every invocation of the run command with `--run-tests`
set and `--json` not set, if any unit test fails the command returns exit
code 1 and the execution graph is never dispatched to the runner. -/
theorem claim_C10_run_tests_gate (argv : RunArgv) (env : RunEnv)
    (htests : argv.runTests = true) (hjson : argv.json = false)
    (hfail : env.testResults.any (fun ok => !ok) = true) :
    exitCode (runProcessFn argv env).1 = 1
    ∧ Event.runnerInvoked ∉ (runProcessFn argv env).2 := by
  have hguard : (argv.json && !argv.dryRun) = false := by simp [hjson]
  by_cases herrs : compiledGraphHasErrors env.compiledGraph = true
  · simp [runProcessFn, hguard, herrs, exitCode, processReturn]
  · have herrs' : compiledGraphHasErrors env.compiledGraph = false := by
      simpa using herrs
    simp [runProcessFn, hguard, herrs', hjson, htests, hfail, exitCode,
      processReturn]

/-- Witness for the amended C10 at a concrete failing-test environment. -/
theorem claim_C10_run_tests_gate_witness :
    { argvPlain with runTests := true }.runTests = true
    ∧ { argvPlain with runTests := true }.json = false
    ∧ envFailingTest.testResults.any (fun ok => !ok) = true
    ∧ exitCode
        (runProcessFn { argvPlain with runTests := true } envFailingTest).1 = 1 :=
  ⟨by decide, by decide, by decide,
    (claim_C10_run_tests_gate { argvPlain with runTests := true } envFailingTest
      (by decide) (by decide) (by decide)).1⟩

/-- C4 counterexample: supplying `--include-deps` together with an `--actions`
option that carries zero patterns (yargs yields the empty array, which is
truthy in JavaScript) passes both option checks, so no fatal selection error
is raised even though the pattern list is empty and no tags are supplied —
the invocation proceeds to graph work (compilation happens). -/
theorem claim_C4_counterexample :
    ({ argvPlain with includeDeps := true, actions := some [] } : RunArgv).actions
      = some []
    ∧ includeDepsCheckThrows true (some []) none = false
    ∧ (runCommand { argvPlain with includeDeps := true, actions := some [] }
        envOneAction).1 ≠ CliResult.fatalOptionError
    ∧ Event.compileCalled
      ∈ (runCommand { argvPlain with includeDeps := true, actions := some [] }
        envOneAction).2 := by
  decide

/-- C4 (amended): for every invocation where `--include-deps` or
`--include-dependents` is requested while neither the `--actions` option nor
the `--tags` option is supplied at all (absent, not merely empty), the option
check throws, the CLI failure handler exits fatally, and no graph work
begins (the effect trace is empty). -/
theorem claim_C4_empty_seed_fatal (argv : RunArgv) (env : RunEnv)
    (hflag : argv.includeDeps = true ∨ argv.includeDependents = true)
    (hact : argv.actions = none) (htags : argv.tags = none) :
    runCommand argv env = (CliResult.fatalOptionError, []) := by
  have h1 : jsTruthy argv.actions = false := by simp [jsTruthy, hact]
  have h2 : jsTruthy argv.tags = false := by simp [jsTruthy, htags]
  cases hflag with
  | inl h =>
    simp [runCommand, includeDepsCheckThrows, includeDependentsCheckThrows,
      h1, h2, h]
  | inr h =>
    simp [runCommand, includeDepsCheckThrows, includeDependentsCheckThrows,
      h1, h2, h]

/-- Witness for the amended C4: `--include-deps` with both selection options
absent is fatal with an empty effect trace. -/
theorem claim_C4_empty_seed_fatal_witness :
    ({ argvPlain with includeDeps := true } : RunArgv).includeDeps = true
    ∧ ({ argvPlain with includeDeps := true } : RunArgv).actions = none
    ∧ ({ argvPlain with includeDeps := true } : RunArgv).tags = none
    ∧ runCommand { argvPlain with includeDeps := true } envOneAction
      = (CliResult.fatalOptionError, []) :=
  ⟨by decide, by decide, by decide,
    claim_C4_empty_seed_fatal { argvPlain with includeDeps := true } envOneAction
      (Or.inl (by decide)) (by decide) (by decide)⟩

/-- C2 counterexample: a dry-run invocation without `--json` does not output
the execution graph — it dispatches the graph to the runner (in warehouse
dry-run validation mode) and the command's result is derived from a
RunResult. This refutes the claim as stated for every dry-run invocation. -/
theorem claim_C2_counterexample :
    ({ argvPlain with dryRun := true } : RunArgv).dryRun = true
    ∧ outcomeIsGraph
        (runProcessFn { argvPlain with dryRun := true } envOneAction).1 = false
    ∧ (runProcessFn { argvPlain with dryRun := true } envOneAction).1
      = RunOutcome.ran RunExecutionStatus.SUCCESSFUL
    ∧ Event.runnerInvoked
      ∈ (runProcessFn { argvPlain with dryRun := true } envOneAction).2 := by
  decide

/-- C2 (amended): for every dry-run invocation with `--json` set (and a
successfully compiled graph), the resolved ExecutionGraph is produced as the
output (not a RunResult), the runner is never invoked and no test is run (so
no statement is dispatched), and every action's status stays PENDING. -/
theorem claim_C2_dry_run_json_graph (argv : RunArgv) (env : RunEnv)
    (hdry : argv.dryRun = true) (hjson : argv.json = true)
    (herr : env.compiledGraph.compilationErrors = []) :
    (runProcessFn argv env).1
      = RunOutcome.dryRunJson (buildExecutionGraph env.selectedActionNames)
    ∧ outcomeIsGraph (runProcessFn argv env).1 = true
    ∧ Event.runnerInvoked ∉ (runProcessFn argv env).2
    ∧ Event.testsRun ∉ (runProcessFn argv env).2
    ∧ ∀ a ∈ buildExecutionGraph env.selectedActionNames,
        a.status = ActionExecutionStatus.PENDING := by
  have herrb : compiledGraphHasErrors env.compiledGraph = false := by
    simp [compiledGraphHasErrors, herr]
  have hmain : runProcessFn argv env
      = (RunOutcome.dryRunJson (buildExecutionGraph env.selectedActionNames),
        [Event.compileCalled, Event.buildCalled]) := by
    simp [runProcessFn, hjson, hdry, herrb]
  refine ⟨by rw [hmain], ?_, ?_, ?_, ?_⟩
  · rw [hmain]
    simp [outcomeIsGraph]
  · rw [hmain]
    simp
  · rw [hmain]
    simp
  · intro a ha
    simp only [buildExecutionGraph, List.mem_map] at ha
    obtain ⟨n, _, rfl⟩ := ha
    rfl

/-- Witness for the amended C2: dry-run JSON output over one selected action
yields the PENDING graph and never reaches the runner. -/
theorem claim_C2_dry_run_json_graph_witness :
    ({ argvPlain with dryRun := true, json := true } : RunArgv).dryRun = true
    ∧ envOneAction.compiledGraph.compilationErrors = []
    ∧ (runProcessFn { argvPlain with dryRun := true, json := true }
        envOneAction).1
      = RunOutcome.dryRunJson (buildExecutionGraph envOneAction.selectedActionNames) :=
  ⟨by decide, by decide,
    (claim_C2_dry_run_json_graph { argvPlain with dryRun := true, json := true }
      envOneAction (by decide) (by decide) (by decide)).1⟩

/-- C6: For every incremental merge, the schema-change policy behaves as:
IGNORE performs no reconciliation; FAIL aborts the action before any DDL/DML
exactly when target and query column sets differ; EXTEND adds new columns
(the reconciled column set is the union) but aborts when a target column is
missing from the query (removed or renamed); SYNCHRONIZE adds new columns
and drops columns absent from the query result (the reconciled column set
equals the query's). -/
theorem claim_C6_schema_change_policy (target query : List String) :
    reconcileSchema OnSchemaChange.IGNORE target query = some target
    ∧ (sameColumnSet target query = true ↔ ∀ c, c ∈ target ↔ c ∈ query)
    ∧ (reconcileSchema OnSchemaChange.FAIL target query = none
      ↔ sameColumnSet target query = false)
    ∧ ((∃ c ∈ target, c ∉ query) →
      reconcileSchema OnSchemaChange.EXTEND target query = none)
    ∧ ((∀ c ∈ target, c ∈ query) →
      ∃ r, reconcileSchema OnSchemaChange.EXTEND target query = some r
        ∧ ∀ c, c ∈ r ↔ (c ∈ target ∨ c ∈ query))
    ∧ (∃ r, reconcileSchema OnSchemaChange.SYNCHRONIZE target query = some r
      ∧ ∀ c, c ∈ r ↔ c ∈ query) := by
  refine ⟨rfl, ?_, ?_, ?_, ?_, ?_⟩
  · simp only [sameColumnSet, Bool.and_eq_true, List.all_eq_true,
      decide_eq_true_eq]
    constructor
    · rintro ⟨h1, h2⟩ c
      exact ⟨fun hc => h1 c hc, fun hc => h2 c hc⟩
    · intro h
      exact ⟨fun c hc => (h c).mp hc, fun c hc => (h c).mpr hc⟩
  · cases h : sameColumnSet target query <;> simp [reconcileSchema, h]
  · rintro ⟨c, hct, hcq⟩
    have hall : ¬(target.all (fun c => decide (c ∈ query)) = true) := by
      rw [List.all_eq_true]
      intro hq
      exact hcq (by simpa using hq c hct)
    simp [reconcileSchema, hall]
  · intro hsub
    have hall : target.all (fun c => decide (c ∈ query)) = true := by
      rw [List.all_eq_true]
      intro c hc
      simpa using hsub c hc
    refine ⟨target ++ query.filter (fun c => decide (c ∉ target)),
      by simp [reconcileSchema, hall], ?_⟩
    intro c
    simp only [List.mem_append, List.mem_filter, decide_eq_true_eq]
    tauto
  · refine ⟨target.filter (fun c => decide (c ∈ query))
      ++ query.filter (fun c => decide (c ∉ target)), rfl, ?_⟩
    intro c
    simp only [List.mem_append, List.mem_filter, decide_eq_true_eq]
    tauto

/-- Witness for C6 at the spec's scenario: target columns `{id,name}`, query
columns `{id,name,extra}`; under EXTEND the reconciliation succeeds and the
reconciled column set is the union (the target gains `extra`). -/
theorem claim_C6_schema_change_policy_witness :
    (∀ c ∈ colsTarget, c ∈ colsQuery)
    ∧ ∃ r, reconcileSchema OnSchemaChange.EXTEND colsTarget colsQuery = some r
      ∧ ∀ c, c ∈ r ↔ (c ∈ colsTarget ∨ c ∈ colsQuery) :=
  ⟨by decide,
    (claim_C6_schema_change_policy colsTarget colsQuery).2.2.2.2.1 (by decide)⟩

/-- C7: For every DataPreparation action, the resolved load mode behaves as:
replace fully overwrites the target, append inserts all rows, maximum
inserts only rows whose configured column value exceeds every value currently
in the target (the current maximum), unique inserts only rows whose
configured column value is not already present in the target, and automatic
resolves to maximum when an ordering column is known and otherwise to
append. -/
theorem claim_C7_load_modes (target incoming : List Row) (c : String) :
    dataPrepLoad LoadMode.replace target incoming = incoming
    ∧ dataPrepLoad LoadMode.append target incoming = target ++ incoming
    ∧ (∀ r : Row, r ∈ dataPrepLoad (LoadMode.maximum c) target incoming
      ↔ (r ∈ target ∨ (r ∈ incoming ∧ ∀ t ∈ target, t.cols c < r.cols c)))
    ∧ (∀ r : Row, r ∈ dataPrepLoad (LoadMode.unique c) target incoming
      ↔ (r ∈ target ∨ (r ∈ incoming ∧ ∀ t ∈ target, t.cols c ≠ r.cols c)))
    ∧ resolveLoadMode (LoadMode.automatic (some c)) = ResolvedLoadMode.maximum c
    ∧ resolveLoadMode (LoadMode.automatic none) = ResolvedLoadMode.append
    ∧ dataPrepLoad (LoadMode.automatic (some c)) target incoming
      = dataPrepLoad (LoadMode.maximum c) target incoming
    ∧ dataPrepLoad (LoadMode.automatic none) target incoming
      = dataPrepLoad LoadMode.append target incoming := by
  refine ⟨rfl, rfl, ?_, ?_, rfl, rfl, rfl, rfl⟩
  · intro r
    simp only [dataPrepLoad, resolveLoadMode, applyResolvedLoad,
      List.mem_append, List.mem_filter, List.all_eq_true, decide_eq_true_eq]
  · intro r
    simp only [dataPrepLoad, resolveLoadMode, applyResolvedLoad,
      List.mem_append, List.mem_filter, List.all_eq_true, decide_eq_true_eq]

end Dataform
